import Mathlib

/-!
A shallow embedding of `src/main.py` (yt-transcript): a pipeline that shells
out to an external downloader, resolves the produced audio file path from the
captured standard output (or a fallback directory scan), and optionally sends
the file to a transcription service, writing the response next to the audio
file.  Strings are embedded as `List Char`; the subprocess call, the directory
listing and the transcription service call are parameters of the embedded
functions.
-/

namespace YtTranscript

/-- Whitespace characters removed by Python `str.strip()` (ASCII subset). -/
def isPySpace (c : Char) : Bool :=
  c = ' ' || c = '\t' || c = '\n' || c = '\r' || c = '\x0b' || c = '\x0c'

/-- Model of Python `str.strip()`: remove whitespace from both ends. -/
def pyStrip (s : List Char) : List Char :=
  ((s.dropWhile isPySpace).reverse.dropWhile isPySpace).reverse

/-- `hasSubstr s pat` models Python `pat in s` (substring containment). -/
def hasSubstr (s pat : List Char) : Bool :=
  s.tails.any fun t => pat.isPrefixOf t

/-- Index of the first occurrence of `pat` in `s`, `none` when absent. -/
def firstOcc (pat : List Char) : List Char → Option Nat
  | [] => if pat.isEmpty then some 0 else none
  | s@(_ :: rest) =>
    if pat.isPrefixOf s then some 0 else (firstOcc pat rest).map (· + 1)

/-- Model of Python `s.split(sep)[1]` for a non-empty separator: the text
between the first and the second occurrence of `sep` (up to the end when
`sep` occurs only once).  `none` models the `IndexError` raised when `sep`
does not occur in `s`, so that `s.split(sep)` is the one-element list `[s]`
and index 1 is out of range. -/
def splitIndexOne (sep s : List Char) : Option (List Char) :=
  match firstOcc sep s with
  | none => none
  | some i =>
    let rest := s.drop (i + sep.length)
    match firstOcc sep rest with
    | none => some rest
    | some j => some (rest.take j)

/-- The dedicated marker tested by the `if` branch at `main.py:53`. -/
def extractMarker : List Char := "[ExtractAudio] Destination:".data

/-- The separator used by the split at `main.py:54` (marker plus space). -/
def extractMarkerSep : List Char := "[ExtractAudio] Destination: ".data

/-- The generic marker tested by the `elif` branch at `main.py:57`. -/
def destMarker : List Char := "Destination:".data

/-- The separator used by the split at `main.py:58` (marker plus space). -/
def destMarkerSep : List Char := "Destination: ".data

/-- The condition under which the loop at `main.py:52-59` stops at `line`:
the `if` branch (dedicated extract-audio marker occurs in the line) or the
`elif` branch (generic marker occurs and the line ends with a dot followed
by the requested format). -/
def lineMatches (fmt line : List Char) : Bool :=
  hasSubstr line extractMarker ||
    (hasSubstr line destMarker && ('.' :: fmt).isSuffixOf line)

/-- What the loop body assigns for a matching `line`:
`line.split("[ExtractAudio] Destination: ")[1].strip()` in the `if` branch,
otherwise `line.split("Destination: ")[1].strip()` in the `elif` branch.
`none` models the `IndexError` raised when the separator (marker followed by
a space) does not occur in the line. -/
def parseMatchedLine (line : List Char) : Option (List Char) :=
  if hasSubstr line extractMarker then
    (splitIndexOne extractMarkerSep line).map pyStrip
  else
    (splitIndexOne destMarkerSep line).map pyStrip

/-- The scan of `process.stdout.split('\n')` at `main.py:52-59`.
`none`: no line matched and the loop's `else` (the fallback directory scan)
runs.  `some none`: a line matched but its parse raised `IndexError`.
`some (some p)`: a line matched and `audio_file` was set to `p`. -/
def scanLines (fmt : List Char) : List (List Char) → Option (Option (List Char))
  | [] => none
  | line :: rest =>
    if lineMatches fmt line then some (parseMatchedLine line)
    else scanLines fmt rest

/-- Insert an entry into a list already sorted by modification time
descending, before the first entry whose time is not larger.  Python's
`list.sort` is stable, so with `reverse=True` entries with equal times keep
their directory-listing order. -/
def insertByMtime (x : List Char × Int) :
    List (List Char × Int) → List (List Char × Int)
  | [] => [x]
  | y :: ys => if y.2 ≤ x.2 then x :: y :: ys else y :: insertByMtime x ys

/-- Model of `audio_files.sort(key=getmtime, reverse=True)` at `main.py:65`:
stable sort by modification time, newest first. -/
def sortByMtimeDesc : List (List Char × Int) → List (List Char × Int)
  | [] => []
  | x :: xs => insertByMtime x (sortByMtimeDesc xs)

/-- Model of posix `os.path.join(a, b)` as used at `main.py:66`. -/
def pyJoin (a b : List Char) : List Char :=
  if ['/'].isPrefixOf b then b
  else if a.isEmpty || ['/'].isSuffixOf a then a ++ b
  else a ++ '/' :: b

/-- Outcome of the `subprocess.run` call at `main.py:44-49`: the external
downloader's exit status and its captured text streams. -/
structure SubprocRes where
  returncode : Int
  stdout : List Char
  stderr : List Char
deriving DecidableEq

/-- The operator-facing message printed by the handlers at `main.py:73-79`:
`CalledProcessError` (non-zero exit, `check=True`) surfaces the captured
error stream; every other exception is printed as a download error. -/
inductive FetchError
  | calledProcessError (stderr : List Char)
  | downloadError (msg : List Char)
deriving DecidableEq

/-- Message of the exception raised at `main.py:68` when the fallback scan
finds no file with the requested extension. -/
def notFoundMsg (fmt : List Char) : List Char :=
  "Could not find downloaded audio file with format ".data ++ fmt

/-- Message of the `IndexError` raised by an out-of-range `[1]` index. -/
def indexErrMsg : List Char := "list index out of range".data

/-- What `download_audio_from_youtube` produces: the returned path (`none`
models Python `None`) and the error message printed on a caught failure. -/
structure FetchOutcome where
  audio_file : Option (List Char)
  error : Option FetchError
deriving DecidableEq

/-- `download_audio_from_youtube` (`main.py:10-79`) as a function of the
subprocess outcome `proc` and the output directory listing `dirListing`
(each file name paired with its modification time, in `os.listdir` order).
With `check=True` a non-zero exit status raises `CalledProcessError`; the
destination-line scan runs on the captured output; when no line matches,
the fallback picks the newest file with the requested extension; every
exception is caught at `main.py:73-79` and turned into an absent result
plus a printed message. -/
def download_audio_from_youtube (proc : SubprocRes) (output_path fmt : List Char)
    (dirListing : List (List Char × Int)) : FetchOutcome :=
  if proc.returncode ≠ 0 then
    { audio_file := none, error := some (.calledProcessError proc.stderr) }
  else
    match scanLines fmt (proc.stdout.splitOn '\n') with
    | some (some p) => { audio_file := some p, error := none }
    | some none => { audio_file := none, error := some (.downloadError indexErrMsg) }
    | none =>
      let audio_files := dirListing.filter fun f => ('.' :: fmt).isSuffixOf f.1
      match sortByMtimeDesc audio_files with
      | g :: _ => { audio_file := some (pyJoin output_path g.1), error := none }
      | [] => { audio_file := none, error := some (.downloadError (notFoundMsg fmt)) }

/-- Model of posix `os.path.splitext`: split off the extension, which runs
from the last `'.'` of the final path component, unless every character of
that component before this dot is itself a dot (leading dots are part of
the root) or a `'/'` occurs after the last dot (`genericpath._splitext`). -/
def pySplitext (p : List Char) : List Char × List Char :=
  let r := p.reverse
  let after := r.takeWhile fun c => c ≠ '.'
  match r.drop after.length with
  | [] => (p, [])
  | _ :: before =>
    if after.any (fun c => c = '/') then (p, [])
    else if (before.takeWhile fun c => c ≠ '/').any (fun c => c ≠ '.') then
      (before.reverse, '.' :: after.reverse)
    else (p, [])

/-- The transcript file path computed at `main.py:119`:
`os.path.splitext(audio_file_path)[0] + "_transcript.json"`. -/
def transcript_path (audio_file_path : List Char) : List Char :=
  (pySplitext audio_file_path).1 ++ "_transcript.json".data

/-- Observable outcome of `transcribe_audio` (`main.py:81-126`): the
transcript file written (path and contents), whether the `except` handler
reported an error, and how many times the service was invoked. -/
structure TranscribeOutcome where
  written : Option (List Char × List Char)
  errorReported : Bool
  apiCalls : Nat
deriving DecidableEq

/-- `transcribe_audio` (`main.py:81-126`) as a function of the service
call's result `api` (`Except.error` covers any exception raised by the call
at `main.py:109-112`: network, authentication or malformed-response
failures).  On success the response JSON is printed and written to
`transcript_path`; on failure the `except` handler prints the error and no
file is written; the service is called exactly once either way. -/
def transcribe_audio (audio_file_path : List Char)
    (api : Except (List Char) (List Char)) : TranscribeOutcome :=
  match api with
  | .ok json =>
    { written := some (transcript_path audio_file_path, json)
      errorReported := false
      apiCalls := 1 }
  | .error _ =>
    { written := none, errorReported := true, apiCalls := 1 }

/-- Python truthiness of `audio_file` and `api_key` in `main`: `None` and
the empty string are falsy. -/
def pyTruthy : Option (List Char) → Bool
  | none => false
  | some s => !s.isEmpty

/-- The observable actions of `main` after the fetch (`main.py:145-152`). -/
inductive MainEvent
  | printApiKey (v : Option (List Char))
  | printCredError
  | printCredRemediation
  | callTranscriber (path key : List Char)
deriving DecidableEq

/-- `main.py:145-152` as the sequence of actions performed after the fetch,
given the `-t` flag, the fetch result, and the `DEEPGRAM_API_KEY`
environment value (`none` models an unset variable).  When `-t` is set and
the fetch result is truthy, `print(api_key)` runs first; then either the
missing-credential error and remediation messages are printed, or
`transcribe_audio` is called with the path and the key. -/
def mainEvents (transcribe : Bool) (audio_file : Option (List Char))
    (env_key : Option (List Char)) : List MainEvent :=
  if transcribe && pyTruthy audio_file then
    MainEvent.printApiKey env_key ::
      (if pyTruthy env_key then
        [MainEvent.callTranscriber (audio_file.getD []) (env_key.getD [])]
      else
        [MainEvent.printCredError, MainEvent.printCredRemediation])
  else []

/-- A scan over lines none of which matches reaches the loop's `else`. -/
theorem scanLines_eq_none (fmt : List Char) (lines : List (List Char))
    (h : ∀ l ∈ lines, lineMatches fmt l = false) : scanLines fmt lines = none := by
  induction lines with
  | nil => rfl
  | cons line rest ih =>
    have h0 : lineMatches fmt line = false := h line (List.mem_cons_self _ _)
    have h1 : ∀ l ∈ rest, lineMatches fmt l = false :=
      fun l hl => h l (List.mem_cons_of_mem _ hl)
    simp [scanLines, h0, ih h1]

/-- The scan stops at the first matching line: whatever comes after it does
not change the outcome. -/
theorem scanLines_first_match (fmt line : List Char) (pre post : List (List Char))
    (hpre : ∀ l ∈ pre, lineMatches fmt l = false) (hline : lineMatches fmt line = true) :
    scanLines fmt (pre ++ line :: post) = some (parseMatchedLine line) := by
  induction pre with
  | nil => simp [scanLines, hline]
  | cons q qs ih =>
    have h0 : lineMatches fmt q = false := hpre q (List.mem_cons_self _ _)
    simp [scanLines, h0, ih fun l hl => hpre l (List.mem_cons_of_mem _ hl)]

/-- Membership in an insertion is membership in the inserted element or the
original list. -/
theorem mem_insertByMtime {z x : List Char × Int} {l : List (List Char × Int)} :
    z ∈ insertByMtime x l ↔ z = x ∨ z ∈ l := by
  induction l with
  | nil => simp [insertByMtime]
  | cons y ys ih =>
    by_cases h : y.2 ≤ x.2
    · simp only [insertByMtime, if_pos h, List.mem_cons]
    · simp only [insertByMtime, if_neg h, List.mem_cons, ih]
      tauto

/-- The sort permutes: membership is preserved. -/
theorem mem_sortByMtimeDesc {z : List Char × Int} {l : List (List Char × Int)} :
    z ∈ sortByMtimeDesc l ↔ z ∈ l := by
  induction l with
  | nil => simp [sortByMtimeDesc]
  | cons x xs ih => simp [sortByMtimeDesc, mem_insertByMtime, ih]

/-- Inserting into a descending list keeps it descending. -/
theorem pairwise_insertByMtime {x : List Char × Int} {l : List (List Char × Int)}
    (h : l.Pairwise fun a b => b.2 ≤ a.2) :
    (insertByMtime x l).Pairwise fun a b => b.2 ≤ a.2 := by
  induction l with
  | nil => simp [insertByMtime]
  | cons y ys ih =>
    rw [List.pairwise_cons] at h
    obtain ⟨hy, hys⟩ := h
    by_cases hc : y.2 ≤ x.2
    · simp only [insertByMtime, if_pos hc, List.pairwise_cons]
      refine ⟨?_, hy, hys⟩
      intro z hz
      rcases List.mem_cons.mp hz with rfl | hz'
      · exact hc
      · exact le_trans (hy z hz') hc
    · simp only [insertByMtime, if_neg hc, List.pairwise_cons]
      refine ⟨?_, ih hys⟩
      intro z hz
      rcases mem_insertByMtime.mp hz with rfl | hz'
      · exact le_of_not_le hc
      · exact hy z hz'

/-- The sorted listing is descending in modification time. -/
theorem pairwise_sortByMtimeDesc (l : List (List Char × Int)) :
    (sortByMtimeDesc l).Pairwise fun a b => b.2 ≤ a.2 := by
  induction l with
  | nil => simp [sortByMtimeDesc]
  | cons x xs ih =>
    simp only [sortByMtimeDesc]
    exact pairwise_insertByMtime ih

/-- The head of the sorted listing is an element of the original listing
with maximal modification time. -/
theorem sortByMtimeDesc_head_max {l t : List (List Char × Int)} {g : List Char × Int}
    (h : sortByMtimeDesc l = g :: t) :
    g ∈ l ∧ ∀ z ∈ l, z.2 ≤ g.2 := by
  have hg : g ∈ sortByMtimeDesc l := by rw [h]; exact List.mem_cons_self _ _
  refine ⟨mem_sortByMtimeDesc.mp hg, ?_⟩
  intro z hz
  have hz' : z ∈ sortByMtimeDesc l := mem_sortByMtimeDesc.mpr hz
  rw [h] at hz'
  rcases List.mem_cons.mp hz' with rfl | hz''
  · exact le_refl _
  · have hp := pairwise_sortByMtimeDesc l
    rw [h, List.pairwise_cons] at hp
    exact hp.1 z hz''

/-- Inserting never produces the empty list. -/
theorem insertByMtime_ne_nil (x : List Char × Int) (l : List (List Char × Int)) :
    insertByMtime x l ≠ [] := by
  cases l with
  | nil => simp [insertByMtime]
  | cons y ys => by_cases h : y.2 ≤ x.2 <;> simp [insertByMtime, h]

/-- An empty sorted listing comes from an empty listing. -/
theorem sortByMtimeDesc_eq_nil {l : List (List Char × Int)}
    (h : sortByMtimeDesc l = []) : l = [] := by
  cases l with
  | nil => rfl
  | cons x xs =>
    simp only [sortByMtimeDesc] at h
    exact absurd h (insertByMtime_ne_nil _ _)

/-- `takeWhile` takes exactly a prefix all of whose characters satisfy the
predicate when the next character does not. -/
theorem takeWhile_append_all {p : Char → Bool} {l1 l2 : List Char} {h : Char}
    (hall : ∀ c ∈ l1, p c = true) (hh : p h = false) :
    (l1 ++ h :: l2).takeWhile p = l1 := by
  induction l1 with
  | nil => simp [List.takeWhile_cons, hh]
  | cons a as ih =>
    have ha : p a = true := hall a (List.mem_cons_self _ _)
    simp [List.takeWhile_cons, ha, ih fun c hc => hall c (List.mem_cons_of_mem _ hc)]

/-- `pySplitext` on a path of the form `stem.ext`, where the stem's last
character is neither a dot nor a separator and the extension contains
neither: it splits exactly at that dot, like Python's `os.path.splitext`. -/
theorem pySplitext_append_ext (s : List Char) (c : Char) (ext : List Char)
    (hc1 : c ≠ '.') (hc2 : c ≠ '/')
    (hext : ∀ a ∈ ext, a ≠ '.' ∧ a ≠ '/') :
    pySplitext ((s ++ [c]) ++ '.' :: ext) = (s ++ [c], '.' :: ext) := by
  have hrev : ((s ++ [c]) ++ '.' :: ext).reverse = ext.reverse ++ '.' :: (c :: s.reverse) := by
    simp
  have hafter :
      (((s ++ [c]) ++ '.' :: ext).reverse.takeWhile fun a => a ≠ '.') = ext.reverse := by
    rw [hrev]
    exact takeWhile_append_all
      (fun a ha => by
        simp only [decide_eq_true_eq]
        exact (hext a (List.mem_reverse.mp ha)).1)
      (by simp)
  have hdrop :
      ((s ++ [c]) ++ '.' :: ext).reverse.drop ext.reverse.length = '.' :: (c :: s.reverse) := by
    rw [hrev]
    exact List.drop_left _ _
  have h1 : (ext.reverse.any fun a => a = '/') = false := by
    rw [Bool.eq_false_iff]
    intro hany
    rw [List.any_eq_true] at hany
    obtain ⟨a, ha, ha2⟩ := hany
    exact (hext a (List.mem_reverse.mp ha)).2 (by simpa using ha2)
  have h2 : (((c :: s.reverse).takeWhile fun a => a ≠ '/').any fun a => a ≠ '.') = true := by
    have htw : ((c :: s.reverse).takeWhile fun a => a ≠ '/') =
        c :: (s.reverse.takeWhile fun a => a ≠ '/') := by
      simp [List.takeWhile_cons, hc2]
    rw [htw, List.any_cons]
    simp [hc1]
  simp only [pySplitext, hafter, hdrop, h1, h2]
  simp

/-- C1, counterexample.  The single-line stdout `"[ExtractAudio] Destination:"`
contains the dedicated destination marker, so by the claim the function
should return the path parsed from this first matching line; instead the
parse raises `IndexError` (the separator, marker followed by a space, is
absent) and the function returns `None`, returning no path at all. -/
theorem C1_counterexample :
    lineMatches "wav".data "[ExtractAudio] Destination:".data = true ∧
    (download_audio_from_youtube ⟨0, "[ExtractAudio] Destination:".data, []⟩
        "./".data "wav".data []).audio_file = none := by
  exact ⟨by decide, by decide⟩

/-- C1, amended.  When the downloader stdout has a matching destination line
and the first such line in scan order also contains the marker followed by
`": "` (so its split-then-index parse succeeds, yielding `p`), the function
returns `p`, regardless of how many later matching lines exist and of the
directory contents. -/
theorem C1_first_match_parsed (proc : SubprocRes) (output_path fmt p : List Char)
    (dirListing : List (List Char × Int)) (pre post : List (List Char)) (line : List Char)
    (hexit : proc.returncode = 0)
    (hsplit : proc.stdout.splitOn '\n' = pre ++ line :: post)
    (hpre : ∀ l ∈ pre, lineMatches fmt l = false)
    (hline : lineMatches fmt line = true)
    (hparse : parseMatchedLine line = some p) :
    (download_audio_from_youtube proc output_path fmt dirListing).audio_file = some p := by
  unfold download_audio_from_youtube
  rw [if_neg (by simp [hexit]), hsplit,
    scanLines_first_match fmt line pre post hpre hline, hparse]

/-- C1, witness for the amended theorem: a three-line stdout whose second
line is the first match; the third, also matching, line is ignored. -/
theorem C1_first_match_parsed_witness :
    (download_audio_from_youtube
        ⟨0, "junk\n[ExtractAudio] Destination: /out/Test Clip.wav\nDestination: other.wav".data,
          []⟩ "./".data "wav".data []).audio_file = some "/out/Test Clip.wav".data :=
  C1_first_match_parsed
    ⟨0, "junk\n[ExtractAudio] Destination: /out/Test Clip.wav\nDestination: other.wav".data, []⟩
    "./".data "wav".data "/out/Test Clip.wav".data []
    ["junk".data] ["Destination: other.wav".data]
    "[ExtractAudio] Destination: /out/Test Clip.wav".data
    rfl (by decide) (by decide) (by decide) (by decide)

/-- C8: a line can contain a destination marker and still fail to parse:
`"Destination:file.wav"` (no space after the colon) matches the `elif`
branch, the separator `"Destination: "` does not occur, `split(...)[1]`
raises `IndexError`, the generic handler catches it, and the function
returns an absent result with the index-error message. -/
theorem C8_marker_without_separator :
    hasSubstr "Destination:file.wav".data destMarker = true ∧
    splitIndexOne destMarkerSep "Destination:file.wav".data = none ∧
    download_audio_from_youtube ⟨0, "Destination:file.wav".data, []⟩ "./".data "wav".data [] =
      { audio_file := none, error := some (.downloadError indexErrMsg) } := by
  exact ⟨by decide, by decide, by decide⟩

/-- C2: when no stdout line matches a destination marker and the output
directory contains at least one file whose name ends with a dot followed by
the requested format, the function returns the output-directory path (the
join of the directory and the file name) of a matching file whose
modification time is maximal among the matching files — the first entry of
the listing sorted by modification time descending. -/
theorem C2_fallback_most_recent (proc : SubprocRes) (output_path fmt : List Char)
    (dirListing : List (List Char × Int))
    (hexit : proc.returncode = 0)
    (hnoline : ∀ l ∈ proc.stdout.splitOn '\n', lineMatches fmt l = false)
    (hsome : dirListing.filter (fun f => ('.' :: fmt).isSuffixOf f.1) ≠ []) :
    ∃ g, g ∈ dirListing ∧ ('.' :: fmt).isSuffixOf g.1 = true ∧
      (∀ z ∈ dirListing, ('.' :: fmt).isSuffixOf z.1 = true → z.2 ≤ g.2) ∧
      (download_audio_from_youtube proc output_path fmt dirListing).audio_file =
        some (pyJoin output_path g.1) := by
  unfold download_audio_from_youtube
  rw [if_neg (by simp [hexit]), scanLines_eq_none fmt _ hnoline]
  cases hs : sortByMtimeDesc (dirListing.filter fun f => ('.' :: fmt).isSuffixOf f.1) with
  | nil => exact absurd (sortByMtimeDesc_eq_nil hs) hsome
  | cons g t =>
    obtain ⟨hmem, hmax⟩ := sortByMtimeDesc_head_max hs
    obtain ⟨hgdir, hgsuf⟩ := List.mem_filter.mp hmem
    refine ⟨g, hgdir, hgsuf, ?_, ?_⟩
    · intro z hz hzsuf
      exact hmax z (List.mem_filter.mpr ⟨hz, hzsuf⟩)
    · simp only [hs]

/-- C2, witness: two `.wav` files with different modification times and one
`.mp3` file; the newer `.wav` file is selected and joined to the output
directory. -/
theorem C2_fallback_most_recent_witness :
    ∃ g, g ∈ [("old.wav".data, (5 : Int)), ("new.wav".data, 9), ("skip.mp3".data, 99)] ∧
      ('.' :: "wav".data).isSuffixOf g.1 = true ∧
      (∀ z ∈ [("old.wav".data, (5 : Int)), ("new.wav".data, 9), ("skip.mp3".data, 99)],
        ('.' :: "wav".data).isSuffixOf z.1 = true → z.2 ≤ g.2) ∧
      (download_audio_from_youtube ⟨0, "nothing here".data, []⟩ "/out".data "wav".data
          [("old.wav".data, (5 : Int)), ("new.wav".data, 9), ("skip.mp3".data, 99)]).audio_file =
        some (pyJoin "/out".data g.1) :=
  C2_fallback_most_recent ⟨0, "nothing here".data, []⟩ "/out".data "wav".data
    [("old.wav".data, (5 : Int)), ("new.wav".data, 9), ("skip.mp3".data, 99)]
    rfl (by decide) (by decide)

/-- C3: when no stdout line matches and no directory entry ends with the
requested extension, the fetch result is `None`, and `main` performs no
action after the fetch — in particular `transcribe_audio` is not called —
whatever the `-t` flag and the environment are. -/
theorem C3_no_file_no_transcription (proc : SubprocRes) (output_path fmt : List Char)
    (dirListing : List (List Char × Int)) (transcribe : Bool) (env_key : Option (List Char))
    (hexit : proc.returncode = 0)
    (hnoline : ∀ l ∈ proc.stdout.splitOn '\n', lineMatches fmt l = false)
    (hnofile : dirListing.filter (fun f => ('.' :: fmt).isSuffixOf f.1) = []) :
    (download_audio_from_youtube proc output_path fmt dirListing).audio_file = none ∧
    mainEvents transcribe
      (download_audio_from_youtube proc output_path fmt dirListing).audio_file env_key = [] := by
  have h : (download_audio_from_youtube proc output_path fmt dirListing).audio_file = none := by
    unfold download_audio_from_youtube
    rw [if_neg (by simp [hexit]), scanLines_eq_none fmt _ hnoline]
    simp only [hnofile, sortByMtimeDesc]
  refine ⟨h, ?_⟩
  rw [h]
  simp [mainEvents, pyTruthy]

/-- C3, witness: empty stdout and a directory holding only an `.mp3` file,
with `-t` set and a key present: the fetch is absent and nothing runs. -/
theorem C3_no_file_no_transcription_witness :
    (download_audio_from_youtube ⟨0, [], []⟩ "./".data "wav".data
        [("skip.mp3".data, (7 : Int))]).audio_file = none ∧
    mainEvents true
      (download_audio_from_youtube ⟨0, [], []⟩ "./".data "wav".data
        [("skip.mp3".data, (7 : Int))]).audio_file (some "KEY".data) = [] :=
  C3_no_file_no_transcription ⟨0, [], []⟩ "./".data "wav".data
    [("skip.mp3".data, (7 : Int))] true (some "KEY".data) rfl (by decide) (by decide)

/-- C5: with `-t` set and a truthy fetch result, an unset or empty
`DEEPGRAM_API_KEY` makes `main` print the key echo, the missing-credential
error and the remediation instruction, and nothing else: `transcribe_audio`
is not called, and no action touches the fetched file or the fetch result
(the embedded `main` never modifies `audio_file`).  The function is total:
the missing credential is handled, not a crash. -/
theorem C5_missing_credential_skips (audio : List Char) (env_key : Option (List Char))
    (haudio : audio ≠ [])
    (henv : env_key = none ∨ env_key = some []) :
    mainEvents true (some audio) env_key =
      [MainEvent.printApiKey env_key, MainEvent.printCredError,
        MainEvent.printCredRemediation] := by
  have hne : audio.isEmpty = false := by
    cases audio with
    | nil => exact absurd rfl haudio
    | cons a as => rfl
  rcases henv with rfl | rfl <;> simp [mainEvents, pyTruthy, hne]

/-- C5, witness: a fetched `.wav` path with the credential unset. -/
theorem C5_missing_credential_skips_witness :
    mainEvents true (some "/out/a.wav".data) none =
      [MainEvent.printApiKey none, MainEvent.printCredError,
        MainEvent.printCredRemediation] :=
  C5_missing_credential_skips "/out/a.wav".data none (by decide) (Or.inl rfl)

/-- C9: with `-t` set and a truthy fetch result, the very first action of
`main` after the fetch is `print(api_key)` — the environment value (the key,
or `None` when unset) is echoed to standard output before the validity
check, for every possible value of the credential. -/
theorem C9_api_key_echoed (audio : List Char) (env_key : Option (List Char))
    (haudio : audio ≠ []) :
    (mainEvents true (some audio) env_key).head? =
      some (MainEvent.printApiKey env_key) := by
  have hne : audio.isEmpty = false := by
    cases audio with
    | nil => exact absurd rfl haudio
    | cons a as => rfl
  simp [mainEvents, pyTruthy, hne]

/-- C9, witness: a secret key value is the first thing echoed. -/
theorem C9_api_key_echoed_witness :
    (mainEvents true (some "/out/a.wav".data) (some "sk-secret".data)).head? =
      some (MainEvent.printApiKey (some "sk-secret".data)) :=
  C9_api_key_echoed "/out/a.wav".data (some "sk-secret".data) (by decide)

/-- C4: the transcript path is a pure function of the audio path — for a
path of the form `stem.ext` (the stem's last character neither a dot nor a
slash, the extension free of dots and slashes) the extension is replaced by
`_transcript.json`, and on a successful transcription the response is
written exactly there. -/
theorem C4_transcript_path_replaces_extension (s : List Char) (c : Char)
    (ext json : List Char) (hc1 : c ≠ '.') (hc2 : c ≠ '/')
    (hext : ∀ a ∈ ext, a ≠ '.' ∧ a ≠ '/') :
    transcript_path ((s ++ [c]) ++ '.' :: ext) = (s ++ [c]) ++ "_transcript.json".data ∧
    (transcribe_audio ((s ++ [c]) ++ '.' :: ext) (.ok json)).written =
      some ((s ++ [c]) ++ "_transcript.json".data, json) := by
  have h := pySplitext_append_ext s c ext hc1 hc2 hext
  constructor
  · simp only [transcript_path, h]
  · simp only [transcribe_audio, transcript_path, h]

/-- C4, witness: the spec's example, `/tmp/song.wav` maps to
`/tmp/song_transcript.json`. -/
theorem C4_transcript_path_replaces_extension_witness :
    transcript_path "/tmp/song.wav".data = "/tmp/song_transcript.json".data := by
  have e : "/tmp/song.wav".data = ("/tmp/son".data ++ ['g']) ++ '.' :: "wav".data := by decide
  have e2 : "/tmp/song_transcript.json".data =
      ("/tmp/son".data ++ ['g']) ++ "_transcript.json".data := by decide
  rw [e, e2]
  exact (C4_transcript_path_replaces_extension "/tmp/son".data 'g' "wav".data "x".data
    (by decide) (by decide) (by decide)).1

/-- C6: a failed transcription (any exception from the service call —
network, authentication, malformed response) is reported by the `except`
handler, writes no transcript file at all (so no partial transcript), and
invokes the service exactly once (no retry). -/
theorem C6_failure_no_transcript (audio_file_path err : List Char) :
    transcribe_audio audio_file_path (.error err) =
      { written := none, errorReported := true, apiCalls := 1 } := rfl

/-- C7: failures are absorbed at the stage boundary.  A non-zero downloader
exit status yields an absent result plus the captured-error message; a
resolution failure (no matching line, no matching file) yields an absent
result plus the not-found message; a failed transcription is reported by
its own handler.  The embedded functions are total, so nothing is raised
past the stage boundary. -/
theorem C7_failures_absorbed (proc : SubprocRes) (output_path fmt : List Char)
    (dirListing : List (List Char × Int)) (p err : List Char) :
    (proc.returncode ≠ 0 →
      download_audio_from_youtube proc output_path fmt dirListing =
        { audio_file := none, error := some (.calledProcessError proc.stderr) }) ∧
    (proc.returncode = 0 →
      (∀ l ∈ proc.stdout.splitOn '\n', lineMatches fmt l = false) →
      dirListing.filter (fun f => ('.' :: fmt).isSuffixOf f.1) = [] →
      download_audio_from_youtube proc output_path fmt dirListing =
        { audio_file := none, error := some (.downloadError (notFoundMsg fmt)) }) ∧
    transcribe_audio p (.error err) =
      { written := none, errorReported := true, apiCalls := 1 } := by
  refine ⟨?_, ?_, rfl⟩
  · intro h
    unfold download_audio_from_youtube
    rw [if_pos h]
  · intro h hno hfil
    unfold download_audio_from_youtube
    rw [if_neg (by simp [h]), scanLines_eq_none fmt _ hno]
    simp only [hfil, sortByMtimeDesc]

/-- C7, witness: a failing subprocess, a run that resolves no file, and a
failing transcription, each at a concrete input. -/
theorem C7_failures_absorbed_witness :
    download_audio_from_youtube ⟨1, [], "boom".data⟩ "./".data "wav".data [] =
      { audio_file := none, error := some (.calledProcessError "boom".data) } ∧
    download_audio_from_youtube ⟨0, "abc".data, []⟩ "./".data "wav".data [] =
      { audio_file := none, error := some (.downloadError (notFoundMsg "wav".data)) } ∧
    transcribe_audio "/a.wav".data (.error "netfail".data) =
      { written := none, errorReported := true, apiCalls := 1 } :=
  ⟨(C7_failures_absorbed ⟨1, [], "boom".data⟩ "./".data "wav".data []
      "/a.wav".data "netfail".data).1 (by decide),
   (C7_failures_absorbed ⟨0, "abc".data, []⟩ "./".data "wav".data []
      "/a.wav".data "netfail".data).2.1 rfl (by decide) rfl,
   (C7_failures_absorbed ⟨0, [], []⟩ "./".data "wav".data []
      "/a.wav".data "netfail".data).2.2⟩

/-- C10: a path produced by the fallback scan is the join of the output
directory with the name of a directory entry ending in a dot followed by
the requested format (so it names a file present at scan time); a path
produced from a destination line is returned as parsed, for every directory
listing whatsoever — no existence, directory or extension check. -/
theorem C10_fallback_joined_vs_verbatim (proc : SubprocRes) (output_path fmt : List Char)
    (dirListing : List (List Char × Int))
    (hexit : proc.returncode = 0) :
    (scanLines fmt (proc.stdout.splitOn '\n') = none →
      ∀ p, (download_audio_from_youtube proc output_path fmt dirListing).audio_file = some p →
        ∃ g, g ∈ dirListing ∧ ('.' :: fmt).isSuffixOf g.1 = true ∧
          p = pyJoin output_path g.1) ∧
    (∀ q, scanLines fmt (proc.stdout.splitOn '\n') = some (some q) →
      ∀ dir2 : List (List Char × Int),
        (download_audio_from_youtube proc output_path fmt dir2).audio_file = some q) := by
  constructor
  · intro hscan p hp
    unfold download_audio_from_youtube at hp
    rw [if_neg (by simp [hexit]), hscan] at hp
    cases hs : sortByMtimeDesc (dirListing.filter fun f => ('.' :: fmt).isSuffixOf f.1) with
    | nil => simp only [hs] at hp; exact absurd hp (by simp)
    | cons g t =>
      simp only [hs, Option.some.injEq] at hp
      obtain ⟨hmem, hmax⟩ := sortByMtimeDesc_head_max hs
      obtain ⟨hgdir, hgsuf⟩ := List.mem_filter.mp hmem
      exact ⟨g, hgdir, hgsuf, hp.symm⟩
  · intro q hscan dir2
    unfold download_audio_from_youtube
    rw [if_neg (by simp [hexit]), hscan]

/-- C10, witness: a fallback run returning a joined directory entry, and a
destination-line run returning an `.mp3` path verbatim although the format
is `wav` and the directory is empty. -/
theorem C10_fallback_joined_vs_verbatim_witness :
    (∃ g, g ∈ [("a.wav".data, (3 : Int))] ∧ ('.' :: "wav".data).isSuffixOf g.1 = true ∧
      "/o/a.wav".data = pyJoin "/o".data g.1) ∧
    (download_audio_from_youtube ⟨0, "[ExtractAudio] Destination: /n/x.mp3".data, []⟩
        "/o".data "wav".data []).audio_file = some "/n/x.mp3".data :=
  ⟨(C10_fallback_joined_vs_verbatim ⟨0, "no match".data, []⟩ "/o".data "wav".data
      [("a.wav".data, (3 : Int))] rfl).1 (by decide) "/o/a.wav".data (by decide),
   (C10_fallback_joined_vs_verbatim ⟨0, "[ExtractAudio] Destination: /n/x.mp3".data, []⟩
      "/o".data "wav".data [] rfl).2 "/n/x.mp3".data (by decide) []⟩

end YtTranscript
